import Mathlib

set_option maxRecDepth 100000

/-!
Shallow embedding of the trading-bot dashboard (src/dashboard.py).

The store is the SQLite database `trading_history.db`: a `trades` table and a
`market_sentiment` table, both modelled as lists in rowid (insertion) order.
Numeric SQL values are modelled as `ℚ`, SQL NULL as `Option`, SQL text as
`String`.  Each of the four data operations of the dashboard
(`load_trades`, `load_agent_performance`, `load_sentiment_history`,
`get_equity_curve`) is translated from its SQL query; the page body
(headline metrics, charts, trade table, decision-log expanders) is
translated into `assembleView` / `run_dashboard`.

`ORDER BY` is modelled with the stable `List.insertionSort`; SQL leaves the
relative order of rows with equal sort keys unspecified, and no claim below
depends on that relative order.
-/

/-- Row of the `trades` table (full schema, as written by the bot).
`profit` is NULL while the trade is open; `reason`, `reflection`,
`agent_name`, `confidence` and the price fields are nullable. -/
structure Trade where
  id : Nat
  timestamp : Nat
  symbol : String := ""
  action : String := ""
  entry : Option ℚ := none
  sl : Option ℚ := none
  tp : Option ℚ := none
  exit_price : Option ℚ := none
  profit : Option ℚ := none
  reason : Option String := none
  reflection : Option String := none
  agent_name : Option String := none
  confidence : Option ℚ := none
deriving DecidableEq

/-- Row of the `market_sentiment` table. -/
structure Sentiment where
  timestamp : Nat
  sentiment_score : ℚ := 0
  sentiment_signal : Option String := none
  fundamental_score : ℚ := 0
  fundamental_signal : Option String := none
deriving DecidableEq

/-- The persisted store: both tables, each in rowid (insertion) order. -/
structure Store where
  trades : List Trade
  market_sentiment : List Sentiment
deriving DecidableEq

/-- Result row of `load_trades`' SELECT.  The query selects
`id, timestamp, symbol, action, entry, sl, tp, exit_price, profit, reason,
agent_name, confidence` — note that `reflection` is NOT in the SELECT list. -/
structure TradeRow where
  id : Nat
  timestamp : Nat
  symbol : String
  action : String
  entry : Option ℚ
  sl : Option ℚ
  tp : Option ℚ
  exit_price : Option ℚ
  profit : Option ℚ
  reason : Option String
  agent_name : Option String
  confidence : Option ℚ
deriving DecidableEq

/-- Projection performed by `load_trades`' SELECT list. -/
def selectTradeRow (t : Trade) : TradeRow :=
  { id := t.id, timestamp := t.timestamp, symbol := t.symbol, action := t.action,
    entry := t.entry, sl := t.sl, tp := t.tp, exit_price := t.exit_price,
    profit := t.profit, reason := t.reason, agent_name := t.agent_name,
    confidence := t.confidence }

/-- ORDER BY timestamp DESC on trades. -/
def tradeTsDesc (a b : Trade) : Prop := b.timestamp ≤ a.timestamp

instance : DecidableRel tradeTsDesc := fun a b => Nat.decLe b.timestamp a.timestamp

/-- ORDER BY timestamp (ascending) on trades. -/
def tradeTsAsc (a b : Trade) : Prop := a.timestamp ≤ b.timestamp

instance : DecidableRel tradeTsAsc := fun a b => Nat.decLe a.timestamp b.timestamp

instance : IsTotal Trade tradeTsAsc := ⟨fun a b => Nat.le_total a.timestamp b.timestamp⟩

instance : IsTrans Trade tradeTsAsc := ⟨fun _ _ _ h h' => Nat.le_trans h h'⟩

/-- ORDER BY timestamp DESC on market_sentiment. -/
def sentTsDesc (a b : Sentiment) : Prop := b.timestamp ≤ a.timestamp

instance : DecidableRel sentTsDesc := fun a b => Nat.decLe b.timestamp a.timestamp

/-- sort_values('timestamp') ascending on the sentiment dataframe. -/
def sentTsAsc (a b : Sentiment) : Prop := a.timestamp ≤ b.timestamp

instance : DecidableRel sentTsAsc := fun a b => Nat.decLe a.timestamp b.timestamp

/-- Operation `load_trades`: SELECT (twelve columns) FROM trades ORDER BY timestamp DESC
LIMIT 100. -/
def load_trades (s : Store) : List TradeRow :=
  ((List.insertionSort tradeTsDesc s.trades).take 100).map selectTradeRow

/-- Rows satisfying `WHERE profit IS NOT NULL` (the closed trades). -/
def closedTrades (s : Store) : List Trade :=
  s.trades.filter fun t => (t.profit).isSome

/-- Distinct keys of a `GROUP BY` / `SELECT DISTINCT`, in first-occurrence
order (SQL leaves the group output order unspecified; no claim depends
on it). -/
def groupKeys : List (Option String) → List (Option String)
  | [] => []
  | a :: rest => a :: (groupKeys rest).filter fun b => decide (b ≠ a)

/-- Rows of one `GROUP BY agent_name` group. -/
def groupRows (closed : List Trade) (k : Option String) : List Trade :=
  closed.filter fun t => decide (t.agent_name = k)

/-- SUM(profit) over a set of rows (SQL SUM skips NULLs, which is the same
sum as mapping NULL to 0). -/
def sumProfits (l : List Trade) : ℚ := (l.map fun t => (t.profit).getD 0).sum

/-- Result row of `load_agent_performance`'s SELECT. -/
structure AgentPerfRow where
  agent_name : Option String
  total_trades : Nat
  wins : Nat
  total_profit : ℚ
  avg_profit : ℚ
  avg_confidence : Option ℚ
deriving DecidableEq

/-- One aggregated row: COUNT(*), SUM(CASE WHEN profit > 0 THEN 1 ELSE 0 END),
SUM(profit), AVG(profit), AVG(confidence) over one agent's closed trades.
SQL AVG ignores NULLs and is NULL when every value is NULL. -/
def perfRowOf (closed : List Trade) (k : Option String) : AgentPerfRow :=
  let g := groupRows closed k
  let confs := g.filterMap fun t => t.confidence
  { agent_name := k,
    total_trades := g.length,
    wins := g.countP fun t => decide ((0 : ℚ) < (t.profit).getD 0),
    total_profit := sumProfits g,
    avg_profit := sumProfits g / (g.length : ℚ),
    avg_confidence := if confs = [] then none else some (confs.sum / (confs.length : ℚ)) }

/-- The aggregation over a given list of closed trades. -/
def agentPerfOf (closed : List Trade) : List AgentPerfRow :=
  (groupKeys (closed.map fun t => t.agent_name)).map (perfRowOf closed)

/-- Operation `load_agent_performance`: SELECT agent_name, COUNT(*), SUM(CASE WHEN
profit > 0 THEN 1 ELSE 0 END), SUM(profit), AVG(profit), AVG(confidence)
FROM trades WHERE profit IS NOT NULL GROUP BY agent_name. -/
def load_agent_performance (s : Store) : List AgentPerfRow :=
  agentPerfOf (closedTrades s)

/-- Operation `load_sentiment_history`: SELECT (five columns) FROM market_sentiment
ORDER BY timestamp DESC LIMIT 50. -/
def load_sentiment_history (s : Store) : List Sentiment :=
  (List.insertionSort sentTsDesc s.market_sentiment).take 50

/-- The python dict `signal_map = {'BULLISH': 1, 'NEUTRAL': 0, 'BEARISH': -1}`
used as a pandas `.map` lookup (missing key means NaN). -/
def signal_map (sig : String) : Option Int :=
  if sig = "BULLISH" then some 1
  else if sig = "NEUTRAL" then some 0
  else if sig = "BEARISH" then some (-1)
  else none

/-- Expression `sentiment_df['sentiment_signal'].map(signal_map).fillna(0)` applied to one
signal: a NULL signal or a key missing from the dict becomes 0. -/
def signal_value (sig : Option String) : Int := ((sig.bind signal_map).getD 0)

/-- One point of the equity-curve query result. -/
structure EquityPoint where
  timestamp : Nat
  cumulative_profit : ℚ
deriving DecidableEq

/-- The closed trades in the window ORDER BY timestamp. -/
def equityRows (s : Store) : List Trade :=
  List.insertionSort tradeTsAsc (closedTrades s)

/-- Window expression `SUM(profit) OVER (ORDER BY timestamp)` at one row: SQLite's default
window frame is RANGE BETWEEN UNBOUNDED PRECEDING AND CURRENT ROW, which
sums every row whose ORDER BY key is ≤ the current row's key — peer rows
with equal timestamps are all included. -/
def windowSum (rows : List Trade) (t : Trade) : ℚ :=
  sumProfits (rows.filter fun u => decide (u.timestamp ≤ t.timestamp))

/-- Operation `get_equity_curve`: SELECT timestamp, SUM(profit) OVER (ORDER BY timestamp)
FROM trades WHERE profit IS NOT NULL ORDER BY timestamp. -/
def get_equity_curve (s : Store) : List EquityPoint :=
  (equityRows s).map fun t => ⟨t.timestamp, windowSum (equityRows s) t⟩

/-- Expression `len(trades_df[trades_df['action'].isin(['BUY', 'SELL'])])`. -/
def totalTradesOf (trades_df : List TradeRow) : Nat :=
  (trades_df.filter fun r => decide (r.action = "BUY") || decide (r.action = "SELL")).length

/-- The displayed Win Rate: `0%` when agent_perf is empty, otherwise
`total_wins / total_trades * 100 if total_trades > 0 else 0`. -/
def winRateOf (trades_df : List TradeRow) (agent_perf : List AgentPerfRow) : ℚ :=
  if agent_perf = [] then 0
  else if 0 < totalTradesOf trades_df then
    (((agent_perf.map fun r => r.wins).sum : Nat) : ℚ) / (totalTradesOf trades_df : ℚ) * 100
  else 0

/-- Headline metric `Total Trades` as a function of the store. -/
def total_trades_metric (s : Store) : Nat := totalTradesOf (load_trades s)

/-- Expression `agent_perf['wins'].sum()`: wins summed over the whole aggregation. -/
def total_wins (s : Store) : Nat := ((load_agent_performance s).map fun r => r.wins).sum

/-- Headline metric `Win Rate` as a function of the store. -/
def win_rate (s : Store) : ℚ := winRateOf (load_trades s) (load_agent_performance s)

/-- Key order of `df.sort_values('total_profit', ascending=False)` for the leaderboard. -/
def profDesc (a b : AgentPerfRow) : Prop := b.total_profit ≤ a.total_profit

instance : DecidableRel profDesc := fun a b =>
  inferInstanceAs (Decidable (b.total_profit ≤ a.total_profit))

instance : IsTotal AgentPerfRow profDesc := ⟨fun a b => le_total b.total_profit a.total_profit⟩

instance : IsTrans AgentPerfRow profDesc := ⟨fun _ _ _ h h' => le_trans h' h⟩

/-- Contract of `agent_perf.sort_values('total_profit', ascending=False)`:
pandas guarantees the output is a permutation of the input whose key column
is non-increasing.  The default kind is the unstable `quicksort`, so the
relative order of rows with equal `total_profit` is not specified; the
contract is therefore a relation, not a function. -/
def sort_values_spec (input output : List AgentPerfRow) : Prop :=
  input.Perm output ∧ output.Pairwise profDesc

/-- One cell of the AI-decision-logs expander: `reason` (with Python's
`str(None)` rendering for NULL) and the reflection line, written only when
`pd.notna(row.get('reflection'))`. -/
structure TradeDetail where
  reason : String
  reflection : Option String
deriving DecidableEq

/-- Expression `row.get('reflection')` on a `load_trades` row: the `reflection` column is
absent from the SELECT list, so pandas' `Series.get` returns its default
`None` for every row. -/
def TradeRow.getReflection (_ : TradeRow) : Option String := none

/-- The expander body for one trade row (dashboard.py lines 317-320). -/
def tradeDetail (r : TradeRow) : TradeDetail :=
  { reason := (r.reason).getD "None",
    reflection := r.getReflection }

/-- Everything the page renders from the four query results.  An `Option`
field is `none` exactly when the page shows the corresponding
`st.info` placeholder (or `N/A`) instead of data. -/
structure DashboardView where
  total_trades : Nat
  total_profit : ℚ
  win_rate : ℚ
  latest_sentiment : Option String
  equity_chart : Option (List EquityPoint)
  leaderboard_chart : Option (List AgentPerfRow)
  score_chart : Option (List (Nat × ℚ))
  signal_chart : Option (List (Nat × Int))
  trade_table : Option (List TradeRow)
  decision_logs : Option (List TradeDetail)
deriving DecidableEq

/-- The page body (dashboard.py lines 111-322) as a function of the four
query results and the sidebar agent filter (`none` is the sentinel
`'Semua'`, meaning all agents).  The leaderboard chart is rendered from one
admissible `sort_values` outcome (the stable insertion sort); its relational
contract is `sort_values_spec`. -/
def assembleView (trades_df : List TradeRow) (agent_perf : List AgentPerfRow)
    (sentiment_df : List Sentiment) (equity_df : List EquityPoint)
    (selectedAgent : Option String) : DashboardView :=
  let filtered := match selectedAgent with
    | none => trades_df
    | some a => trades_df.filter fun r => decide (r.agent_name = some a)
  { total_trades := totalTradesOf trades_df,
    total_profit := if trades_df = [] then 0 else (trades_df.filterMap fun r => r.profit).sum,
    win_rate := winRateOf trades_df agent_perf,
    latest_sentiment := match sentiment_df with
      | [] => none
      | r :: _ => r.sentiment_signal,
    equity_chart := if equity_df = [] then none else some equity_df,
    leaderboard_chart := if agent_perf = [] then none
      else some (List.insertionSort profDesc agent_perf),
    score_chart := if sentiment_df = [] then none
      else some ((List.insertionSort sentTsAsc sentiment_df).map fun r =>
        (r.timestamp, r.sentiment_score)),
    signal_chart := if sentiment_df = [] then none
      else some ((List.insertionSort sentTsAsc sentiment_df).map fun r =>
        (r.timestamp, signal_value r.sentiment_signal)),
    trade_table := if filtered = [] then none else some filtered,
    decision_logs := if filtered = [] then none else some ((filtered.take 5).map tradeDetail) }

/-- The rendered page for a reachable store. -/
def dashboardView (s : Store) (selectedAgent : Option String) : DashboardView :=
  assembleView (load_trades s) (load_agent_performance s) (load_sentiment_history s)
    (get_equity_curve s) selectedAgent

/-- The exception `pd.read_sql_query` raises when the store cannot be reached
or a query fails (sqlite3 OperationalError / pandas DatabaseError). -/
inductive PyException where
  | databaseError
deriving DecidableEq

/-- Call `pd.read_sql_query(query, conn)`: the store connection either works
(`some s`) or the call raises.  dashboard.py contains no try/except. -/
def read_sql {α : Type} (conn : Option Store) (q : Store → α) : Except PyException α :=
  match conn with
  | none => Except.error PyException.databaseError
  | some s => Except.ok (q s)

/-- SELECT DISTINCT agent_name FROM trades WHERE agent_name IS NOT NULL
(the sidebar agent-filter query, dashboard.py line 101). -/
def distinct_agents (s : Store) : List (Option String) :=
  groupKeys ((s.trades.filter fun t => (t.agent_name).isSome).map fun t => t.agent_name)

/-- One run of the dashboard script body: the sidebar query, the four data
loads, then the page body.  Every query raises through to the top — the
script has no handler, so a failing query aborts the run with the
exception. -/
def run_dashboard (conn : Option Store) (selectedAgent : Option String) :
    Except PyException DashboardView := do
  let _agents ← read_sql conn distinct_agents
  let trades_df ← read_sql conn load_trades
  let agent_perf ← read_sql conn load_agent_performance
  let sentiment_df ← read_sql conn load_sentiment_history
  let equity_df ← read_sql conn get_equity_curve
  pure (assembleView trades_df agent_perf sentiment_df equity_df selectedAgent)


/-! Concrete stores used by the witnesses and counterexamples. -/

/-- Store with 101 winning closed BUY trades at distinct timestamps (newest
first in rowid order). -/
def overflowStore : Store :=
  { trades := (List.range 101).map fun i =>
      { id := i, timestamp := 101 - i, action := "BUY", profit := some 1,
        agent_name := some "Alpha" },
    market_sentiment := [] }

/-- Small store with one closed trade and one sentiment row. -/
def demoStore9 : Store :=
  { trades :=
      [ { id := 1, timestamp := 1, action := "BUY", profit := some 10,
          agent_name := some "Alpha" } ],
    market_sentiment :=
      [ { timestamp := 1, sentiment_score := 50, sentiment_signal := some "NEUTRAL" } ] }

/-- Sentiment-only store whose second record has a NULL signal. -/
def demoSentStore : Store :=
  { trades := [],
    market_sentiment :=
      [ { timestamp := 1, sentiment_score := 55, sentiment_signal := some "BULLISH" },
        { timestamp := 2, sentiment_score := 40, sentiment_signal := none } ] }

/-- The NULL-signal record of `demoSentStore`. -/
def nullSignalRecord : Sentiment :=
  { timestamp := 2, sentiment_score := 40, sentiment_signal := none }

/-- The fixed lookup the spec prescribes for charting signals. -/
def signalValueSpec (sig : Option String) : Int :=
  if sig = some "BULLISH" then 1
  else if sig = some "NEUTRAL" then 0
  else if sig = some "BEARISH" then -1
  else 0

/-- C5: the sentiment-signal-to-number mapping is total: BULLISH maps to +1,
NEUTRAL to 0, BEARISH to -1, and every other value, including NULL or
unrecognized signals, maps to 0, for every record of the SentimentHistory
result. -/
theorem sentiment_signal_mapping_total (s : Store) (r : Sentiment)
    (_h : r ∈ load_sentiment_history s) :
    signal_value r.sentiment_signal = signalValueSpec r.sentiment_signal := by
  cases hs : r.sentiment_signal with
  | none => rfl
  | some x =>
      show (signal_map x).getD 0 = signalValueSpec (some x)
      by_cases h1 : x = "BULLISH"
      · simp [signal_map, signalValueSpec, h1]
      · by_cases h2 : x = "NEUTRAL"
        · simp [signal_map, signalValueSpec, h1, h2]
        · by_cases h3 : x = "BEARISH"
          · simp [signal_map, signalValueSpec, h1, h2, h3]
          · simp [signal_map, signalValueSpec, h1, h2, h3]

/-- Witness for C5 at a concrete record of a concrete store (a NULL signal,
which the mapping sends to 0). -/
theorem sentiment_signal_mapping_total_witness :
    signal_value nullSignalRecord.sentiment_signal =
      signalValueSpec nullSignalRecord.sentiment_signal :=
  sentiment_signal_mapping_total demoSentStore nullSignalRecord (by decide)

/-- The headline win-rate formula the spec states, as a function of the
store. -/
lemma winRateOf_formula (df : List TradeRow) (perf : List AgentPerfRow) :
    winRateOf df perf =
      if totalTradesOf df = 0 then 0
      else (((perf.map fun r => r.wins).sum : Nat) : ℚ) / (totalTradesOf df : ℚ) * 100 := by
  unfold winRateOf
  by_cases hp : perf = []
  · subst hp
    simp
  · rw [if_neg hp]
    rcases Nat.eq_zero_or_pos (totalTradesOf df) with ht | ht
    · rw [if_neg (by omega), if_pos ht]
    · rw [if_pos ht, if_neg (Nat.pos_iff_ne_zero.mp ht)]

/-- C4: the headline WinRate equals (sum of per-agent wins from
AgentPerformance) divided by (count of BUY/SELL actions in the loaded
100-trade window) times 100, and is 0 when that count is 0, for every
store state. -/
theorem win_rate_formula (s : Store) :
    win_rate s =
      if total_trades_metric s = 0 then 0
      else ((total_wins s : Nat) : ℚ) / (total_trades_metric s : ℚ) * 100 :=
  winRateOf_formula (load_trades s) (load_agent_performance s)

/-- C9: each of the four operations is a deterministic function of the store
contents: invoked twice against equal store states it returns identical
results. -/
theorem operations_deterministic (s₁ s₂ : Store) (h : s₁ = s₂) :
    load_trades s₁ = load_trades s₂ ∧
      load_agent_performance s₁ = load_agent_performance s₂ ∧
      load_sentiment_history s₁ = load_sentiment_history s₂ ∧
      get_equity_curve s₁ = get_equity_curve s₂ := by
  subst h
  exact ⟨rfl, rfl, rfl, rfl⟩

/-- Witness for C9 at a concrete store. -/
theorem operations_deterministic_witness :
    load_trades demoStore9 = load_trades demoStore9 ∧
      load_agent_performance demoStore9 = load_agent_performance demoStore9 ∧
      load_sentiment_history demoStore9 = load_sentiment_history demoStore9 ∧
      get_equity_curve demoStore9 = get_equity_curve demoStore9 :=
  operations_deterministic demoStore9 demoStore9 rfl

/-- C10: there is a store state whose headline WinRate exceeds 100: the wins
numerator aggregates the entire history (more than 100 winning closed
trades here) while the denominator only counts BUY/SELL rows of the
100-trade window. -/
theorem win_rate_exceeds_100 :
    100 < win_rate overflowStore ∧
      100 < overflowStore.trades.countP (fun t => decide ((0 : ℚ) < (t.profit).getD 0)) ∧
      total_trades_metric overflowStore = 100 := by
  refine ⟨?_, by decide, by decide⟩
  have h := win_rate_formula overflowStore
  have htt : total_trades_metric overflowStore = 100 := by decide
  have hw : total_wins overflowStore = 101 := by decide
  rw [htt, hw] at h
  norm_num at h
  rw [h]
  norm_num

/-- The empty store: both tables empty. -/
def emptyStore : Store := { trades := [], market_sentiment := [] }

/-- Store with an empty trades table but a non-empty sentiment table. -/
def sentOnlyStore : Store :=
  { trades := [],
    market_sentiment :=
      [ { timestamp := 3, sentiment_score := 70, sentiment_signal := some "BULLISH" } ] }

/-- Store whose single closed trade carries a non-null reflection. -/
def reflectionStore : Store :=
  { trades :=
      [ { id := 7, timestamp := 1, action := "BUY", profit := some 12,
          reason := some "RSI oversold", reflection := some "Exit earlier next time",
          agent_name := some "Alpha", confidence := some (1/2) } ],
    market_sentiment := [] }

/-- C6 counterexample: with an unreachable store the dashboard run yields no
view at all — no DataUnavailable placeholder is rendered; the query
exception propagates uncaught and the run aborts. -/
theorem store_failure_counterexample :
    run_dashboard none none = Except.error PyException.databaseError := rfl

/-- C6 amended: when the store cannot be reached, each of the four operations
raises the database exception and the script run aborts with it (the code
has no handler and no DataUnavailable placeholder path); with a reachable
store the run returns the rendered view. -/
theorem store_failure_propagates (conn : Option Store) (ag : Option String)
    (h : conn = none) :
    read_sql conn load_trades = Except.error PyException.databaseError ∧
      read_sql conn load_agent_performance = Except.error PyException.databaseError ∧
      read_sql conn load_sentiment_history = Except.error PyException.databaseError ∧
      read_sql conn get_equity_curve = Except.error PyException.databaseError ∧
      run_dashboard conn ag = Except.error PyException.databaseError ∧
      (∀ s : Store, run_dashboard (some s) ag = Except.ok (dashboardView s ag)) := by
  subst h
  exact ⟨rfl, rfl, rfl, rfl, rfl, fun _ => rfl⟩

/-- Witness for C6's amended statement at the unreachable connection. -/
theorem store_failure_propagates_witness :
    run_dashboard (none : Option Store) none = Except.error PyException.databaseError ∧
      run_dashboard (some emptyStore) none = Except.ok (dashboardView emptyStore none) := by
  have h := store_failure_propagates none none rfl
  exact ⟨h.2.2.2.2.1, h.2.2.2.2.2 emptyStore⟩

/-- C7 counterexample: with an empty trades table but a non-empty sentiment
table, SentimentHistory is not an empty sequence (it reads the
market_sentiment table, not trades), and the page shows a live latest
sentiment rather than the neutral placeholder. -/
theorem empty_trades_sentiment_counterexample :
    sentOnlyStore.trades = [] ∧
      load_sentiment_history sentOnlyStore ≠ [] ∧
      (dashboardView sentOnlyStore none).latest_sentiment = some "BULLISH" := by decide

/-- C7 amended: with an empty trades table the three trade-backed operations
return empty sequences, the trade headline metrics (Total Trades, Total
Profit, Win Rate) are zero, and the run returns a view without raising;
when the sentiment table is empty as well, all four operations return
empty sequences and every field of the view is the zero/placeholder
value. -/
theorem empty_store_defined_results (s : Store) (ag : Option String)
    (h : s.trades = []) :
    load_trades s = [] ∧ load_agent_performance s = [] ∧ get_equity_curve s = [] ∧
      (dashboardView s ag).total_trades = 0 ∧ (dashboardView s ag).total_profit = 0 ∧
      (dashboardView s ag).win_rate = 0 ∧
      run_dashboard (some s) ag = Except.ok (dashboardView s ag) ∧
      (s.market_sentiment = [] →
        load_sentiment_history s = [] ∧
        dashboardView s ag =
          { total_trades := 0, total_profit := 0, win_rate := 0, latest_sentiment := none,
            equity_chart := none, leaderboard_chart := none, score_chart := none,
            signal_chart := none, trade_table := none, decision_logs := none }) := by
  obtain ⟨tr, ms⟩ := s
  replace h : tr = [] := h
  subst h
  refine ⟨rfl, rfl, rfl, rfl, rfl, rfl, rfl, ?_⟩
  intro hms
  replace hms : ms = [] := hms
  subst hms
  refine ⟨rfl, ?_⟩
  cases ag <;> rfl

/-- Witness for C7's amended statement at the fully empty store. -/
theorem empty_store_defined_results_witness :
    load_trades emptyStore = [] ∧ load_agent_performance emptyStore = [] ∧
      get_equity_curve emptyStore = [] ∧ load_sentiment_history emptyStore = [] ∧
      (dashboardView emptyStore none).win_rate = 0 ∧
      run_dashboard (some emptyStore) none = Except.ok (dashboardView emptyStore none) := by
  have h := empty_store_defined_results emptyStore none rfl
  exact ⟨h.1, h.2.1, h.2.2.1, (h.2.2.2.2.2.2.2 rfl).1, h.2.2.2.2.2.1, h.2.2.2.2.2.2.1⟩

/-- C8 (code bug): the stored trade carries a non-null reflection and the
expander code (dashboard.py lines 319-320) is written to display it, yet
the rendered decision log never contains it: `load_trades`' SELECT list
omits the `reflection` column, so `row.get('reflection')` is None for
every row and `pd.notna` of it is always false.  The reason line is
shown. -/
theorem reflection_never_displayed :
    (∃ t ∈ reflectionStore.trades, (t.reflection).isSome = true) ∧
      (dashboardView reflectionStore none).decision_logs =
        some [{ reason := "RSI oversold", reflection := none }] := by decide

/-- Order on nullable agent names used to state the claimed tie-break
(SQL NULLs first, then text ascending; `a.data < b.data` is the
lexicographic character order defining `String` less-than). -/
def optNameLt : Option String → Option String → Prop
  | none, some _ => True
  | none, none => False
  | some _, none => False
  | some a, some b => a.data < b.data

instance : DecidableRel optNameLt := fun a b =>
  match a, b with
  | none, some _ => isTrue trivial
  | none, none => isFalse id
  | some _, none => isFalse id
  | some a, some b => inferInstanceAs (Decidable (a.data < b.data))

/-- The ordering the claim asserts for the displayed leaderboard: total
profit strictly descending, with ties in total profit ordered by
agent_name ascending. -/
def leaderboardTieOrdered (l : List AgentPerfRow) : Prop :=
  l.Pairwise fun a b => b.total_profit < a.total_profit ∨
    (a.total_profit = b.total_profit ∧ optNameLt a.agent_name b.agent_name)

instance (l : List AgentPerfRow) : Decidable (leaderboardTieOrdered l) := by
  unfold leaderboardTieOrdered
  infer_instance

/-- Store producing two aggregate rows with equal total profit, in rowid
order Beta before Alpha. -/
def tieProfitStore : Store :=
  { trades :=
      [ { id := 1, timestamp := 1, action := "BUY", profit := some 50,
          agent_name := some "Beta" },
        { id := 2, timestamp := 2, action := "BUY", profit := some 50,
          agent_name := some "Alpha" } ],
    market_sentiment := [] }

/-- Store producing two aggregate rows with distinct total profits. -/
def distinctProfitStore : Store :=
  { trades :=
      [ { id := 1, timestamp := 1, action := "BUY", profit := some 70,
          agent_name := some "Gamma" },
        { id := 2, timestamp := 2, action := "BUY", profit := some 50,
          agent_name := some "Delta" } ],
    market_sentiment := [] }

/-- Evaluation of the aggregation on `tieProfitStore`. -/
lemma agentPerf_tieProfitStore :
    load_agent_performance tieProfitStore =
      [ { agent_name := some "Beta", total_trades := 1, wins := 1, total_profit := 50,
          avg_profit := 50, avg_confidence := none },
        { agent_name := some "Alpha", total_trades := 1, wins := 1, total_profit := 50,
          avg_profit := 50, avg_confidence := none } ] := by
  simp [load_agent_performance, agentPerfOf, closedTrades, tieProfitStore, groupKeys,
    perfRowOf, groupRows, sumProfits]

/-- Evaluation of the aggregation on `distinctProfitStore`. -/
lemma agentPerf_distinctProfitStore :
    load_agent_performance distinctProfitStore =
      [ { agent_name := some "Gamma", total_trades := 1, wins := 1, total_profit := 70,
          avg_profit := 70, avg_confidence := none },
        { agent_name := some "Delta", total_trades := 1, wins := 1, total_profit := 50,
          avg_profit := 50, avg_confidence := none } ] := by
  simp [load_agent_performance, agentPerfOf, closedTrades, distinctProfitStore, groupKeys,
    perfRowOf, groupRows, sumProfits]

/-- C3 counterexample: on `tieProfitStore` both the aggregation order itself
and its reverse are admissible `sort_values` outcomes, the admissible
outcome shown is not ordered by agent_name within the profit tie, and the
two admissible outcomes differ — so the displayed ranking is neither
name-tie-broken nor a deterministic function of the aggregated rows. -/
theorem leaderboard_tiebreak_counterexample :
    sort_values_spec (load_agent_performance tieProfitStore)
        (load_agent_performance tieProfitStore) ∧
      ¬ leaderboardTieOrdered (load_agent_performance tieProfitStore) ∧
      sort_values_spec (load_agent_performance tieProfitStore)
        ((load_agent_performance tieProfitStore).reverse) ∧
      (load_agent_performance tieProfitStore).reverse ≠
        load_agent_performance tieProfitStore := by
  rw [agentPerf_tieProfitStore]
  exact ⟨⟨by decide, by decide⟩, by decide, ⟨by decide, by decide⟩, by decide⟩

/-- Strict descending order on total profit. -/
def strictProfDesc (a b : AgentPerfRow) : Prop := b.total_profit < a.total_profit

/-- Any two admissible `sort_values` outcomes agree when the aggregated
total profits are pairwise distinct. -/
lemma sort_values_unique {i o₁ o₂ : List AgentPerfRow}
    (h1 : sort_values_spec i o₁) (h2 : sort_values_spec i o₂)
    (hn : (i.map fun r => r.total_profit).Nodup) : o₁ = o₂ := by
  haveI : IsAntisymm AgentPerfRow strictProfDesc :=
    ⟨fun a b hab hba => absurd (lt_trans hab hba) (lt_irrefl _)⟩
  have hp12 : o₁.Perm o₂ := h1.1.symm.trans h2.1
  have hs : ∀ {o : List AgentPerfRow}, sort_values_spec i o → o.Pairwise strictProfDesc := by
    intro o ho
    have hnd : (o.map fun r => r.total_profit).Nodup := ((ho.1.map _).nodup_iff).mp hn
    have hne : o.Pairwise fun a b => a.total_profit ≠ b.total_profit :=
      List.pairwise_map.mp hnd
    exact ((ho.2).and hne).imp fun hc => lt_of_le_of_ne hc.1 fun e => hc.2 e.symm
  exact List.eq_of_perm_of_sorted hp12 (hs h1) (hs h2)

/-- C3 amended: every admissible outcome of
`sort_values('total_profit', ascending=False)` on the aggregation is a
permutation of the aggregated rows ordered by total profit descending;
no agent_name tie-break is applied, and the outcome is a deterministic
function of the aggregated rows only when total profits are pairwise
distinct. -/
theorem leaderboard_sorted_by_profit (s : Store) (o : List AgentPerfRow)
    (h : sort_values_spec (load_agent_performance s) o) :
    o.Perm (load_agent_performance s) ∧ o.Pairwise profDesc ∧
      (∀ o₂, sort_values_spec (load_agent_performance s) o₂ →
        ((load_agent_performance s).map fun r => r.total_profit).Nodup → o = o₂) :=
  ⟨h.1.symm, h.2, fun _ h2 hn => sort_values_unique h h2 hn⟩

/-- Witness for C3's amended statement on a store with distinct profits. -/
theorem leaderboard_sorted_by_profit_witness :
    (load_agent_performance distinctProfitStore).Perm
        (load_agent_performance distinctProfitStore) ∧
      (load_agent_performance distinctProfitStore).Pairwise profDesc := by
  have h := leaderboard_sorted_by_profit distinctProfitStore
    (load_agent_performance distinctProfitStore)
    (by rw [agentPerf_distinctProfitStore]
        exact ⟨List.Perm.refl _, by decide⟩)
  exact ⟨h.1, h.2.1⟩

lemma mem_groupKeys {l : List (Option String)} {a : Option String} :
    a ∈ groupKeys l ↔ a ∈ l := by
  induction l with
  | nil => simp [groupKeys]
  | cons b rest ih =>
      simp only [groupKeys, List.mem_cons, List.mem_filter, decide_eq_true_eq, ih]
      by_cases hab : a = b
      · simp [hab]
      · simp [hab]

lemma sumProfits_eq_filterMap (l : List Trade) :
    sumProfits l = (l.filterMap fun t => t.profit).sum := by
  induction l with
  | nil => rfl
  | cons t rest ih =>
      cases hp : t.profit with
      | none => simp [sumProfits, List.filterMap_cons, hp] at ih ⊢; exact ih
      | some p => simp [sumProfits, List.filterMap_cons, hp] at ih ⊢; rw [ih]

lemma filterMap_profit_filter_isSome (l : List Trade) :
    ((l.filter fun t => (t.profit).isSome).filterMap fun t => t.profit) =
      l.filterMap fun t => t.profit := by
  induction l with
  | nil => rfl
  | cons t rest ih =>
      cases hp : t.profit with
      | none => simp [List.filter_cons, List.filterMap_cons, hp, ih]
      | some p => simp [List.filter_cons, List.filterMap_cons, hp, ih]

lemma groupRows_closedTrades (s : Store) (k : Option String) :
    groupRows (closedTrades s) k =
      s.trades.filter fun t => (t.profit).isSome && decide (t.agent_name = k) := by
  unfold groupRows closedTrades
  rw [List.filter_filter]
  exact List.filter_congr fun t _ => Bool.and_comm _ _

lemma groupRows_closedTrades' (s : Store) (k : Option String) :
    groupRows (closedTrades s) k =
      (s.trades.filter fun t => decide (t.agent_name = k)).filter
        fun t => (t.profit).isSome := by
  unfold groupRows closedTrades
  rw [List.filter_filter, List.filter_filter]
  exact List.filter_congr fun t _ => Bool.and_comm _ _

lemma perfRowOf_agent_name (c : List Trade) (k : Option String) :
    (perfRowOf c k).agent_name = k := rfl

lemma perfRowOf_total_trades (c : List Trade) (k : Option String) :
    (perfRowOf c k).total_trades = (groupRows c k).length := rfl

lemma perfRowOf_wins (c : List Trade) (k : Option String) :
    (perfRowOf c k).wins =
      (groupRows c k).countP fun t => decide ((0 : ℚ) < (t.profit).getD 0) := rfl

lemma perfRowOf_total_profit (c : List Trade) (k : Option String) :
    (perfRowOf c k).total_profit = sumProfits (groupRows c k) := rfl

lemma perfRowOf_avg_profit (c : List Trade) (k : Option String) :
    (perfRowOf c k).avg_profit =
      sumProfits (groupRows c k) / (((groupRows c k).length : Nat) : ℚ) := rfl

lemma perfRowOf_avg_confidence (c : List Trade) (k : Option String) :
    (perfRowOf c k).avg_confidence =
      (if ((groupRows c k).filterMap fun t => t.confidence) = [] then none
        else some ((((groupRows c k).filterMap fun t => t.confidence).sum) /
          ((((groupRows c k).filterMap fun t => t.confidence).length : Nat) : ℚ))) := rfl

lemma wins_spec (s : Store) (k : Option String) :
    ((groupRows (closedTrades s) k).countP
        fun t => decide ((0 : ℚ) < (t.profit).getD 0)) =
      s.trades.countP fun t =>
        (match t.profit with
          | some p => decide ((0 : ℚ) < p)
          | none => false) && decide (t.agent_name = k) := by
  rw [List.countP_eq_length_filter, groupRows_closedTrades, List.filter_filter,
    List.countP_eq_length_filter]
  congr 1
  apply List.filter_congr
  intro t _
  cases hp : t.profit <;> simp [hp]

/-- What C2 states for a single aggregated row, phrased directly over the
trades table: row counts, win counts (profit strictly positive), profit sum,
profit mean, and confidence mean over the non-null confidences, all ranging
over this agent's closed trades only. -/
def perfRowCorrect (s : Store) (row : AgentPerfRow) : Prop :=
  row.total_trades =
      (s.trades.countP fun t =>
        (t.profit).isSome && decide (t.agent_name = row.agent_name)) ∧
    row.wins =
      (s.trades.countP fun t =>
        (match t.profit with
          | some p => decide ((0 : ℚ) < p)
          | none => false) && decide (t.agent_name = row.agent_name)) ∧
    row.total_profit =
      ((s.trades.filter fun t => decide (t.agent_name = row.agent_name)).filterMap
        fun t => t.profit).sum ∧
    row.avg_profit = row.total_profit / ((row.total_trades : Nat) : ℚ) ∧
    row.avg_confidence =
      (if ((s.trades.filter fun t =>
            (t.profit).isSome && decide (t.agent_name = row.agent_name)).filterMap
            fun t => t.confidence) = [] then none
        else some ((((s.trades.filter fun t =>
            (t.profit).isSome && decide (t.agent_name = row.agent_name)).filterMap
            fun t => t.confidence).sum) /
          ((((s.trades.filter fun t =>
            (t.profit).isSome && decide (t.agent_name = row.agent_name)).filterMap
            fun t => t.confidence).length : Nat) : ℚ)))

/-- C2: every AgentPerformance row aggregates exactly the closed trades
(non-null profit) of its agent — counts, strict wins, profit sum and mean,
and confidence mean ignoring NULLs; moreover some closed trade of that
agent exists, and deleting the open (NULL-profit) trades from the store
leaves the whole aggregation unchanged. -/
theorem agent_performance_correct (s : Store) (row : AgentPerfRow)
    (h : row ∈ load_agent_performance s) :
    perfRowCorrect s row ∧
      (∃ t ∈ s.trades, (t.profit).isSome = true ∧ t.agent_name = row.agent_name) ∧
      load_agent_performance
          { trades := s.trades.filter fun t => (t.profit).isSome,
            market_sentiment := s.market_sentiment } =
        load_agent_performance s := by
  obtain ⟨k, hk, hrow⟩ := List.mem_map.mp h
  subst hrow
  refine ⟨?_, ?_, ?_⟩
  · unfold perfRowCorrect
    simp only [perfRowOf_agent_name, perfRowOf_total_trades, perfRowOf_wins,
      perfRowOf_total_profit, perfRowOf_avg_profit, perfRowOf_avg_confidence]
    refine ⟨?_, wins_spec s k, ?_, trivial, ?_⟩
    · rw [groupRows_closedTrades, List.countP_eq_length_filter]
    · rw [sumProfits_eq_filterMap, groupRows_closedTrades',
        filterMap_profit_filter_isSome]
    · rw [groupRows_closedTrades]
  · have hk' : k ∈ (closedTrades s).map fun t => t.agent_name := mem_groupKeys.mp hk
    obtain ⟨t, ht, hname⟩ := List.mem_map.mp hk'
    have hmem := List.mem_filter.mp ht
    exact ⟨t, hmem.1, hmem.2, hname⟩
  · show agentPerfOf _ = agentPerfOf (closedTrades s)
    congr 1
    show (s.trades.filter _).filter _ = s.trades.filter _
    rw [List.filter_filter]
    exact List.filter_congr fun t _ => Bool.and_self _

/-- Store with two agents, one open (NULL-profit) trade and one NULL
confidence among the closed ones. -/
def demoPerfStore : Store :=
  { trades :=
      [ { id := 1, timestamp := 1, action := "BUY", profit := some 100,
          agent_name := some "Alpha", confidence := some (7/10) },
        { id := 2, timestamp := 2, action := "SELL", profit := some (-40),
          agent_name := some "Alpha" },
        { id := 3, timestamp := 3, action := "BUY", profit := some 50,
          agent_name := some "Beta", confidence := some (9/10) },
        { id := 4, timestamp := 4, action := "BUY", profit := none,
          agent_name := some "Alpha" } ],
    market_sentiment := [] }

/-- The aggregated row for agent Alpha on `demoPerfStore`. -/
def alphaRow : AgentPerfRow :=
  { agent_name := some "Alpha", total_trades := 2, wins := 1, total_profit := 60,
    avg_profit := 30, avg_confidence := some (7/10) }

/-- The aggregated row for agent Beta on `demoPerfStore`. -/
def betaRow : AgentPerfRow :=
  { agent_name := some "Beta", total_trades := 1, wins := 1, total_profit := 50,
    avg_profit := 50, avg_confidence := some (9/10) }

/-- Evaluation of the aggregation on `demoPerfStore`. -/
lemma agentPerf_demoPerfStore :
    load_agent_performance demoPerfStore = [alphaRow, betaRow] := by
  simp [load_agent_performance, agentPerfOf, closedTrades, demoPerfStore, groupKeys,
    perfRowOf, groupRows, sumProfits, alphaRow, betaRow]
  norm_num

/-- Witness for C2 at the Alpha row of `demoPerfStore`. -/
theorem agent_performance_correct_witness :
    perfRowCorrect demoPerfStore alphaRow ∧
      (∃ t ∈ demoPerfStore.trades,
        (t.profit).isSome = true ∧ t.agent_name = alphaRow.agent_name) ∧
      load_agent_performance
          { trades := demoPerfStore.trades.filter fun t => (t.profit).isSome,
            market_sentiment := demoPerfStore.market_sentiment } =
        load_agent_performance demoPerfStore :=
  agent_performance_correct demoPerfStore alphaRow
    (by rw [agentPerf_demoPerfStore]; exact List.mem_cons_self _ _)

/-- Store with two closed trades at the same timestamp (profits 10 and 20). -/
def tieTimestampStore : Store :=
  { trades :=
      [ { id := 1, timestamp := 5, action := "BUY", profit := some 10,
          agent_name := some "Alpha" },
        { id := 2, timestamp := 5, action := "SELL", profit := some 20,
          agent_name := some "Alpha" } ],
    market_sentiment := [] }

/-- C1 counterexample: on two closed trades sharing a timestamp, the
window-function query assigns both rows the full peer-group sum 30, so the
curve's cumulative values are neither distinct nor strictly accumulating;
under any stable total order on the tied trades the claim would instead
demand [10, 30] or [20, 30]. -/
theorem equity_curve_tie_counterexample :
    ((get_equity_curve tieTimestampStore).map fun p => p.cumulative_profit) = [30, 30] ∧
      ¬ (((get_equity_curve tieTimestampStore).map fun p => p.cumulative_profit).Nodup) ∧
      ((get_equity_curve tieTimestampStore).map fun p => p.cumulative_profit) ≠ [10, 30] ∧
      ((get_equity_curve tieTimestampStore).map fun p => p.cumulative_profit) ≠ [20, 30] := by
  have h : ((get_equity_curve tieTimestampStore).map fun p => p.cumulative_profit)
      = [30, 30] := by
    simp [get_equity_curve, equityRows, closedTrades, tieTimestampStore, windowSum,
      sumProfits, tradeTsAsc]
    norm_num
  rw [h]
  exact ⟨rfl, by decide, by decide, by decide⟩

/-- Modelled from the spec: the prefix-sum law `cumulative[k] =
cumulative[k-1] + profit[k]` (with `cumulative[0] = profit[0]`), as a
running-total scan with accumulator. -/
def runningTotals : ℚ → List ℚ → List ℚ
  | _, [] => []
  | acc, p :: ps => (acc + p) :: runningTotals (acc + p) ps

lemma windowSum_eq_runningTotals (l : List Trade) :
    ∀ (pre : List Trade) (acc : ℚ),
      l.Pairwise (fun a b => a.timestamp < b.timestamp) →
      sumProfits pre = acc →
      (∀ u ∈ pre, ∀ v ∈ l, u.timestamp < v.timestamp) →
      (l.map fun t => windowSum (pre ++ l) t) =
        runningTotals acc (l.map fun t => (t.profit).getD 0) := by
  induction l with
  | nil => intro pre acc _ _ _; rfl
  | cons x xs ih =>
      intro pre acc hl hacc hpl
      have hxs : xs.filter (fun u => decide (u.timestamp ≤ x.timestamp)) = [] :=
        List.filter_eq_nil_iff.mpr fun u hu => by
          simp only [decide_eq_true_eq]
          exact not_le.mpr (List.rel_of_pairwise_cons hl hu)
      have hpre : pre.filter (fun u => decide (u.timestamp ≤ x.timestamp)) = pre :=
        List.filter_eq_self.mpr fun u hu =>
          decide_eq_true (le_of_lt (hpl u hu x (List.mem_cons_self x xs)))
      have hfilter : (pre ++ x :: xs).filter
          (fun u => decide (u.timestamp ≤ x.timestamp)) = pre ++ [x] := by
        rw [List.filter_append, hpre, List.filter_cons,
          if_pos (decide_eq_true (le_refl x.timestamp)), hxs]
      have hhead : windowSum (pre ++ x :: xs) x = acc + (x.profit).getD 0 := by
        unfold windowSum
        rw [hfilter]
        unfold sumProfits at hacc ⊢
        rw [List.map_append, List.sum_append, hacc]
        simp
      have hacc' : sumProfits (pre ++ [x]) = acc + (x.profit).getD 0 := by
        unfold sumProfits at hacc ⊢
        rw [List.map_append, List.sum_append, hacc]
        simp
      have hpl' : ∀ u ∈ pre ++ [x], ∀ v ∈ xs, u.timestamp < v.timestamp := by
        intro u hu v hv
        rcases List.mem_append.mp hu with h1 | h2
        · exact hpl u h1 v (List.mem_cons_of_mem x hv)
        · rw [List.mem_singleton.mp h2]
          exact List.rel_of_pairwise_cons hl hv
      simp only [List.map_cons, runningTotals]
      rw [hhead, List.append_cons]
      exact congrArg (List.cons _) (ih (pre ++ [x]) (acc + (x.profit).getD 0)
        hl.of_cons hacc' hpl')

/-- C1 amended: EquityCurve yields one point per closed trade in
timestamp-ascending order, and each point's cumulative value is the sum of
profits of all closed trades with timestamp ≤ that point's timestamp
(SQL RANGE-frame semantics, under which rows with equal timestamps share
one cumulative value); when the closed trades' timestamps are pairwise
distinct this coincides with the prefix-sum law
`cumulative[k] = cumulative[k-1] + profit[k]`, `cumulative[0] = profit[0]`. -/
theorem equity_curve_range_frame_correct (s : Store) :
    (get_equity_curve s).length = (closedTrades s).length ∧
      ((get_equity_curve s).map fun p => p.timestamp).Pairwise (· ≤ ·) ∧
      (∀ p ∈ get_equity_curve s,
        p.cumulative_profit =
          sumProfits ((closedTrades s).filter fun u =>
            decide (u.timestamp ≤ p.timestamp))) ∧
      (((closedTrades s).map fun t => t.timestamp).Nodup →
        ((get_equity_curve s).map fun p => p.cumulative_profit) =
          runningTotals 0 ((equityRows s).map fun t => (t.profit).getD 0)) := by
  have hperm : (equityRows s).Perm (closedTrades s) := List.perm_insertionSort _ _
  have hsorted : List.Sorted tradeTsAsc (equityRows s) := List.sorted_insertionSort _ _
  refine ⟨?_, ?_, ?_, ?_⟩
  · rw [get_equity_curve, List.length_map]
    exact hperm.length_eq
  · rw [get_equity_curve, List.map_map]
    exact List.pairwise_map.mpr hsorted
  · intro p hp
    rw [get_equity_curve] at hp
    obtain ⟨t, ht, hpt⟩ := List.mem_map.mp hp
    subst hpt
    show windowSum (equityRows s) t = _
    unfold windowSum sumProfits
    exact List.Perm.sum_eq ((hperm.filter _).map _)
  · intro hnd
    have hnd' : ((equityRows s).map fun t => t.timestamp).Nodup :=
      ((hperm.map _).nodup_iff).mpr hnd
    have hne : (equityRows s).Pairwise fun a b => a.timestamp ≠ b.timestamp :=
      List.pairwise_map.mp hnd'
    have hstrict : (equityRows s).Pairwise fun a b => a.timestamp < b.timestamp :=
      (hsorted.and hne).imp fun hc => lt_of_le_of_ne hc.1 hc.2
    have h := windowSum_eq_runningTotals (equityRows s) [] 0 hstrict rfl
      (fun u hu => absurd hu (List.not_mem_nil u))
    rw [List.nil_append] at h
    rw [get_equity_curve, List.map_map]
    exact h

/-- Store with three closed trades at pairwise distinct timestamps. -/
def demoEquityStore : Store :=
  { trades :=
      [ { id := 1, timestamp := 1, action := "BUY", profit := some 10,
          agent_name := some "Alpha" },
        { id := 2, timestamp := 2, action := "SELL", profit := some (-5),
          agent_name := some "Alpha" },
        { id := 3, timestamp := 3, action := "BUY", profit := some 20,
          agent_name := some "Beta" } ],
    market_sentiment := [] }

/-- Witness for C1's amended statement: the prefix-sum law on a store whose
closed trades have pairwise distinct timestamps. -/
theorem equity_curve_range_frame_correct_witness :
    ((get_equity_curve demoEquityStore).map fun p => p.cumulative_profit) =
      runningTotals 0 ((equityRows demoEquityStore).map fun t => (t.profit).getD 0) :=
  (equity_curve_range_frame_correct demoEquityStore).2.2.2 (by decide)
